import Mathlib

/-!
Verification of the airba retail-analytics backend (flask-backend).

The numeric code of the backend is embedded shallowly over `ℚ` (exact
arithmetic standing in for Python floats); `math.sqrt` is embedded as
`Real.sqrt`.  Each definition is translated from the named source function in
`app/utils/`.  Library-dependent branches (`sklearn_available`) are taken as an
explicit boolean parameter; the `statsmodels` SARIMAX success path, which fits
an external library model, is not embedded — the embedded
`predict_seasonal_arima` is the function as it behaves when `statsmodels` is
unavailable, i.e. its fallback path.  `random.uniform` draws are passed in as
an explicit stream of rationals.
-/

namespace Airba

/-! ### Growth rate — `app/utils/analytics_utils.py`, lines 67–71
(an identical copy lives in `app/routes/analytics.py`, lines 76–80) -/

/-- `calculate_growth_rate(current, previous)`: percentage growth between two
values, with sentinel handling when `previous == 0`. -/
def calculate_growth_rate (current previous : ℚ) : ℚ :=
  if previous = 0 then (if 0 < current then 100 else 0)
  else ((current - previous) / previous) * 100

/-! ### Python `round(x, 2)` in exact arithmetic -/

/-- Round-half-to-even to an integer, the tie-breaking rule of Python's
built-in `round` (modelled in exact rational arithmetic). -/
def roundHalfEven (q : ℚ) : ℤ :=
  let f := ⌊q⌋
  let r := q - f
  if r < 1/2 then f
  else if 1/2 < r then f + 1
  else if f % 2 = 0 then f else f + 1

/-- Python `round(x, 2)`: round to two decimal places, ties to even. -/
def pyRound2 (q : ℚ) : ℚ := (roundHalfEven (q * 100) : ℚ) / 100

/-! ### Statistics — `app/utils/analytics_utils.py`, lines 73–130
The numpy reductions used there (`np.mean`, `np.median`, `np.min`, `np.max`,
`np.var`, `np.std`, `np.percentile`) are modelled as the functions below. -/

/-- `np.mean`: arithmetic mean. -/
def np_mean (l : List ℚ) : ℚ := l.sum / l.length

/-- `np.min` over a nonempty array (0 for the empty list, never reached). -/
def np_min : List ℚ → ℚ
  | [] => 0
  | x :: xs => xs.foldl min x

/-- `np.max` over a nonempty array (0 for the empty list, never reached). -/
def np_max : List ℚ → ℚ
  | [] => 0
  | x :: xs => xs.foldl max x

/-- Ascending sort, as numpy performs internally for median/percentile. -/
def np_sorted (l : List ℚ) : List ℚ := l.insertionSort (· ≤ ·)

/-- `np.median`: middle element of the sorted data, or the average of the two
middle elements for even length. -/
def np_median (l : List ℚ) : ℚ :=
  let s := np_sorted l
  let n := s.length
  if n % 2 = 1 then s.getD (n / 2) 0
  else (s.getD (n / 2 - 1) 0 + s.getD (n / 2) 0) / 2

/-- `np.var`: population variance. -/
def np_var (l : List ℚ) : ℚ := (l.map (fun x => (x - np_mean l) ^ 2)).sum / l.length

/-- `np.std`: population standard deviation, `sqrt` of the variance. -/
noncomputable def np_std (l : List ℚ) : ℝ := Real.sqrt ((np_var l : ℚ) : ℝ)

/-- `np.percentile` with the default linear interpolation between the two
nearest order statistics. -/
def np_percentile (l : List ℚ) (p : ℚ) : ℚ :=
  let s := np_sorted l
  let pos := p / 100 * ((s.length : ℚ) - 1)
  let lo := (⌊pos⌋).toNat
  let frac := pos - (lo : ℚ)
  s.getD lo 0 + frac * (s.getD (lo + 1) (s.getD lo 0) - s.getD lo 0)

/-! ### Python `datetime.date` — proleptic Gregorian calendar
`generate_weekly_data` reads `date.year` and `date.isocalendar()[1]` from the
parsed daily date strings.  The functions below are the CPython `datetime`
algorithms (`_ymd2ord`, `_isoweek1monday`, `isocalendar`) in exact integer
arithmetic. -/

/-- A calendar date as Python's `datetime.date` (year ≥ 1, valid month/day). -/
structure PyDate where
  year : ℤ
  month : ℤ
  day : ℤ
deriving DecidableEq

/-- Gregorian leap-year test. -/
def isLeapYear (y : ℤ) : Bool :=
  y % 4 = 0 ∧ (y % 100 ≠ 0 ∨ y % 400 = 0)

/-- Days in the year before the first of the given month (CPython
`_days_before_month`). -/
def daysBeforeMonth (y m : ℤ) : ℤ :=
  (match m with
    | 1 => 0 | 2 => 31 | 3 => 59 | 4 => 90 | 5 => 120 | 6 => 151
    | 7 => 181 | 8 => 212 | 9 => 243 | 10 => 273 | 11 => 304 | 12 => 334
    | _ => 0) +
  (if 2 < m ∧ isLeapYear y then 1 else 0)

/-- Proleptic Gregorian ordinal of a date, day 1 = 0001-01-01 (CPython
`_ymd2ord`). -/
def ymd2ord (d : PyDate) : ℤ :=
  let py := d.year - 1
  py * 365 + py.fdiv 4 - py.fdiv 100 + py.fdiv 400 + daysBeforeMonth d.year d.month + d.day

/-- Ordinal of the Monday starting ISO week 1 of the given year (CPython
`_isoweek1monday`). -/
def isoweek1monday (year : ℤ) : ℤ :=
  let firstday := ymd2ord ⟨year, 1, 1⟩
  let firstweekday := (firstday + 6) % 7
  let week1monday := firstday - firstweekday
  if 3 < firstweekday then week1monday + 7 else week1monday

/-- Python `date.isocalendar()`: the ISO 8601 (year, week, weekday) triple. -/
def isocalendar (d : PyDate) : ℤ × ℤ × ℤ :=
  let today := ymd2ord d
  let w1 := isoweek1monday d.year
  let week := (today - w1).fdiv 7
  let day := (today - w1).emod 7
  if week < 0 then
    let w1p := isoweek1monday (d.year - 1)
    (d.year - 1, (today - w1p).fdiv 7 + 1, (today - w1p).emod 7 + 1)
  else if 52 ≤ week ∧ isoweek1monday (d.year + 1) ≤ today then
    (d.year + 1, 1, day + 1)
  else (d.year, week + 1, day + 1)

/-! ### Weekly rollups — `app/utils/analytics_visualizations.py`, lines 129–177
A daily rollup item carries a `%Y-%m-%d` date string, parsed back with
`strptime`; the embedding carries the parsed `PyDate` directly (string
formatting/parsing of valid dates is a bijection). -/

/-- One entry of `daily_data` as consumed by `generate_weekly_data` (the
`weekday`/`weekday_name` keys are never read there). -/
structure DailyItem where
  date : PyDate
  total : ℚ
  quantity : ℤ
  orders : ℤ
deriving DecidableEq

/-- The grouping key computed at lines 146–150: calendar year of the date
(`date_obj.year`) paired with the ISO week number (`date_obj.isocalendar()[1]`). -/
def weekKey (d : DailyItem) : ℤ × ℤ := (d.date.year, (isocalendar d.date).2.1)

/-- One value of `weekly_dict` before `avg_order` is attached. -/
structure WeekBucket where
  year : ℤ
  week : ℤ
  total : ℚ
  quantity : ℤ
  orders : ℤ
  start_date : PyDate
  end_date : PyDate
deriving DecidableEq

/-- The key of a bucket, as stored in `weekly_dict`. -/
def bucketKey (b : WeekBucket) : ℤ × ℤ := (b.year, b.week)

/-- Processing of one daily item by the loop at lines 145–165: create the
zero-initialised bucket on first sight of a key (its creation plus the
immediately following `+=` collapse to direct initialisation), otherwise add
the item's totals and move `end_date` forward. -/
def addDayToWeeks (acc : List WeekBucket) (d : DailyItem) : List WeekBucket :=
  if acc.any (fun b => bucketKey b == weekKey d) then
    acc.map (fun b =>
      if bucketKey b = weekKey d then
        { b with total := b.total + d.total, quantity := b.quantity + d.quantity,
                 orders := b.orders + d.orders, end_date := d.date }
      else b)
  else
    acc ++ [{ year := (weekKey d).1, week := (weekKey d).2, total := d.total,
              quantity := d.quantity, orders := d.orders,
              start_date := d.date, end_date := d.date }]

/-- A weekly dictionary after the `avg_order` key is added (lines 171–172). -/
structure WeekRow where
  year : ℤ
  week : ℤ
  total : ℚ
  quantity : ℤ
  orders : ℤ
  start_date : PyDate
  end_date : PyDate
  avg_order : ℚ
deriving DecidableEq

/-- `item['avg_order'] = item['total'] / item['orders'] if item['orders'] > 0 else 0`. -/
def addAvgOrder (b : WeekBucket) : WeekRow :=
  ⟨b.year, b.week, b.total, b.quantity, b.orders, b.start_date, b.end_date,
    if 0 < b.orders then b.total / (b.orders : ℚ) else 0⟩

/-- The sort key `(x['year'], x['week'])` of line 175, as a lexicographic order. -/
def weekOrder (a b : WeekRow) : Prop :=
  a.year < b.year ∨ (a.year = b.year ∧ a.week ≤ b.week)

instance : DecidableRel weekOrder := fun a b => by
  unfold weekOrder; infer_instance

/-- `generate_weekly_data(daily_data)`, lines 129–177. -/
def generate_weekly_data (daily : List DailyItem) : List WeekRow :=
  if daily.isEmpty then []
  else
    List.insertionSort weekOrder ((List.foldl addDayToWeeks [] daily).map addAvgOrder)

/-- The daily items of `ps` falling into week-bucket key `k`. -/
def weekFilter (ps : List DailyItem) (k : ℤ × ℤ) : List DailyItem :=
  ps.filter (fun d => weekKey d == k)

/-- Loop invariant of `generate_weekly_data`'s grouping pass: keys are unique,
every processed item's key has a bucket, and each bucket carries exactly the
sums (and first/last dates in processing order) of its matching items. -/
def WeeklyInv (ps : List DailyItem) (acc : List WeekBucket) : Prop :=
  (acc.map bucketKey).Nodup ∧
  (∀ d ∈ ps, weekKey d ∈ acc.map bucketKey) ∧
  ∀ b ∈ acc,
    b.total = ((weekFilter ps (bucketKey b)).map DailyItem.total).sum ∧
    b.quantity = ((weekFilter ps (bucketKey b)).map DailyItem.quantity).sum ∧
    b.orders = ((weekFilter ps (bucketKey b)).map DailyItem.orders).sum ∧
    (weekFilter ps (bucketKey b)).head?.map DailyItem.date = some b.start_date ∧
    (weekFilter ps (bucketKey b)).getLast?.map DailyItem.date = some b.end_date

/-- The dictionary returned by `calculate_statistics`. -/
structure StatsSummary where
  mean : ℚ
  median : ℚ
  min : ℚ
  max : ℚ
  std_dev : ℝ
  variance : ℚ
  range : ℚ
  quartiles : List ℚ
  skewness : ℝ
  kurtosis : ℝ

/-- The all-zero summary returned for series of fewer than 2 points
(lines 75–87). -/
def allZeroSummary : StatsSummary := ⟨0, 0, 0, 0, 0, 0, 0, [0, 0, 0], 0, 0⟩

/-- `calculate_statistics(data_series)`, lines 73–130. -/
noncomputable def calculate_statistics (data : List ℚ) : StatsSummary :=
  if data.length < 2 then allZeroSummary
  else
    let n : ℚ := data.length
    let mean_val := np_mean data
    let std_dev := np_std data
    let skewness : ℝ :=
      if 0 < std_dev then
        (((data.map (fun x => (x - mean_val) ^ 3)).sum / n : ℚ) : ℝ) / std_dev ^ 3
      else 0
    let kurtosis : ℝ :=
      if 0 < std_dev then
        (((data.map (fun x => (x - mean_val) ^ 4)).sum / n : ℚ) : ℝ) / std_dev ^ 4 - 3
      else 0
    { mean := mean_val
      median := np_median data
      min := np_min data
      max := np_max data
      std_dev := std_dev
      variance := np_var data
      range := np_max data - np_min data
      quartiles := [np_percentile data 25, np_percentile data 50, np_percentile data 75]
      skewness := skewness
      kurtosis := kurtosis }

/-! ### Yearly rollups — `app/utils/analytics_visualizations.py`, lines 179–229 -/

/-- One entry of `monthly_data` as consumed by `generate_yearly_data` (the
`month` key is never read there; `quantity`/`orders` are read with
`.get(…, 0)` and are carried as plain fields here). -/
structure MonthItem where
  year : ℤ
  total : ℚ
  quantity : ℚ
  orders : ℚ
deriving DecidableEq

/-- One value of `yearly_dict` before `avg_order`/`growth` are attached. -/
structure YearBucket where
  year : ℤ
  total : ℚ
  quantity : ℚ
  orders : ℚ
deriving DecidableEq

/-- Processing of one monthly item by the loop at lines 195–208 (zero-init of a
fresh year plus the immediate `+=` collapse to direct initialisation). -/
def addMonthToYears (acc : List YearBucket) (m : MonthItem) : List YearBucket :=
  if acc.any (fun b => b.year == m.year) then
    acc.map (fun b =>
      if b.year = m.year then
        { b with total := b.total + m.total, quantity := b.quantity + m.quantity,
                 orders := b.orders + m.orders }
      else b)
  else acc ++ [⟨m.year, m.total, m.quantity, m.orders⟩]

/-- A yearly dictionary after `avg_order` and `growth` are added
(lines 214–224). -/
structure YearRow where
  year : ℤ
  total : ℚ
  quantity : ℚ
  orders : ℚ
  avg_order : ℚ
  growth : ℚ
deriving DecidableEq

/-- The enumeration loop at lines 214–224: `avg_order = total/orders` when
positive, and `growth` versus the previous list entry's `total` —
`((total − prev)/prev·100) if prev > 0 else 0`, rounded to 2 decimals; `0` for
the first entry.  The `prev` argument carries the previous entry's total. -/
def yearRowsAux : Option ℚ → List YearBucket → List YearRow
  | _, [] => []
  | prev, b :: rest =>
    ⟨b.year, b.total, b.quantity, b.orders,
      if 0 < b.orders then b.total / b.orders else 0,
      pyRound2 (match prev with
        | none => (0 : ℚ)
        | some pt => if 0 < pt then (b.total - pt) / pt * 100 else 0)⟩ ::
    yearRowsAux (some b.total) rest

/-- The sort key `x['year']` of line 227. -/
def yearOrder (a b : YearRow) : Prop := a.year ≤ b.year

instance : DecidableRel yearOrder := fun a b => by
  unfold yearOrder; infer_instance

/-- `generate_yearly_data(monthly_data)`, lines 179–229. -/
def generate_yearly_data (monthly : List MonthItem) : List YearRow :=
  if monthly.isEmpty then []
  else List.insertionSort yearOrder (yearRowsAux none (List.foldl addMonthToYears [] monthly))

/-! ### Forecast models — `app/utils/analytics_predictions.py`
Library availability (`sklearn_available`) is passed as an explicit boolean;
both branches are embedded.  The `sklearn` branch of the linear model fits
ordinary least squares, whose unique solution for ≥ 2 points is the closed
form computed by the manual branch at lines 71–86, so both branches share
`olsSlope`/`olsIntercept`; `model.score` is the coefficient of determination
`olsR2` with sklearn's zero-variance convention. -/

/-- Least-squares slope of values against indices `0..n−1`
(lines 71–83; `if denominator == 0: slope = 0`). -/
def olsSlope (hist : List ℚ) : ℚ :=
  let n : ℚ := hist.length
  let xMean := ((List.range hist.length).map (fun (i : ℕ) => (i : ℚ))).sum / n
  let yMean := hist.sum / n
  let numer := (hist.enum.map (fun p => ((p.1 : ℚ) - xMean) * (p.2 - yMean))).sum
  let denom := ((List.range hist.length).map (fun (i : ℕ) => ((i : ℚ) - xMean) ^ 2)).sum
  if denom = 0 then 0 else numer / denom

/-- Least-squares intercept, `y_mean − slope·x_mean` (line 86). -/
def olsIntercept (hist : List ℚ) : ℚ :=
  hist.sum / hist.length -
    olsSlope hist * (((List.range hist.length).map (fun (i : ℕ) => (i : ℚ))).sum / hist.length)

/-- `model.score(X, y)`: the coefficient of determination `1 − SSres/SStot`,
with sklearn's convention for constant targets (1 when the residual is also 0,
else 0). -/
def olsR2 (hist : List ℚ) : ℚ :=
  let ssRes := (hist.enum.map
    (fun p => (p.2 - (olsIntercept hist + olsSlope hist * (p.1 : ℚ))) ^ 2)).sum
  let ssTot := (hist.map (fun y => (y - np_mean hist) ^ 2)).sum
  if ssTot = 0 then (if ssRes = 0 then 1 else 0) else 1 - ssRes / ssTot

/-- `Σ i^k` over indices `0..n−1` (entries of the degree-2 normal matrix). -/
def powSum (hist : List ℚ) (k : ℕ) : ℚ :=
  ((List.range hist.length).map (fun (i : ℕ) => (i : ℚ) ^ k)).sum

/-- `Σ i^k·y_i` (right-hand side of the degree-2 normal equations). -/
def momSum (hist : List ℚ) (k : ℕ) : ℚ :=
  (hist.enum.map (fun p => ((p.1 : ℚ)) ^ k * p.2)).sum

/-- 3×3 determinant. -/
def det3 (a b c d e f g h i : ℚ) : ℚ :=
  a * (e * i - f * h) - b * (d * i - f * g) + c * (d * h - e * g)

/-- Degree-2 least-squares coefficients `(β₀, β₁, β₂)` by Cramer's rule on the
normal equations — the unique polynomial least-squares solution that
`LinearRegression` on `PolynomialFeatures(degree=2)` computes for ≥ 3 distinct
sample points (the zero-determinant guard is unreachable there). -/
def quadFit (hist : List ℚ) : ℚ × ℚ × ℚ :=
  let s0 := powSum hist 0
  let s1 := powSum hist 1
  let s2 := powSum hist 2
  let s3 := powSum hist 3
  let s4 := powSum hist 4
  let t0 := momSum hist 0
  let t1 := momSum hist 1
  let t2 := momSum hist 2
  let dd := det3 s0 s1 s2 s1 s2 s3 s2 s3 s4
  if dd = 0 then (0, 0, 0)
  else (det3 t0 s1 s2 t1 s2 s3 t2 s3 s4 / dd,
        det3 s0 t0 s2 s1 t1 s3 s2 t2 s4 / dd,
        det3 s0 s1 t0 s1 s2 t1 s2 s3 t2 / dd)

/-- The fitted polynomial of `predict_values_polynomial`'s sklearn branch:
`max_degree = min(degree, n // 2)`, raised to 1 when below (lines 122–125);
the `degree` parameter is 2 at every call site and by default. -/
def polyCoeffs (hist : List ℚ) : ℚ × ℚ × ℚ :=
  if Nat.min 2 (hist.length / 2) ≤ 1 then (olsIntercept hist, olsSlope hist, 0)
  else quadFit hist

/-- Evaluation of the fitted polynomial at a point. -/
def polyEval (c : ℚ × ℚ × ℚ) (x : ℚ) : ℚ := c.1 + c.2.1 * x + c.2.2 * x ^ 2

/-- `model.score(X_poly, y)` for the polynomial fit, same convention as
`olsR2`. -/
def polyR2 (hist : List ℚ) : ℚ :=
  let ssRes := (hist.enum.map
    (fun p => (p.2 - polyEval (polyCoeffs hist) (p.1 : ℚ)) ^ 2)).sum
  let ssTot := (hist.map (fun y => (y - np_mean hist) ^ 2)).sum
  if ssTot = 0 then (if ssRes = 0 then 1 else 0) else 1 - ssRes / ssTot

/-- `predict_values_linear(historical_data, periods, confidence_base=0.9)`,
lines 28–102.  In both branches the per-period decay loop
(`for i in range(1, periods): confidence_scores[i] *= …`, lines 67–68 resp.
line 100) is folded into the comprehension: the factor is 1 at `i = 0`.
In the non-sklearn branch the `confidence_base` parameter is overwritten at
line 98 and hence ignored. -/
def predict_values_linear (sklearnAvailable : Bool) (hist : List ℚ) (periods : ℕ)
    (confidenceBase : ℚ) : List (ℚ × ℚ) :=
  if hist.length < 2 then List.replicate periods (0, 1/2)
  else if sklearnAvailable then
    let preds := (List.range periods).map
      (fun (i : ℕ) => max 0 (olsIntercept hist + olsSlope hist * ((hist.length : ℚ) + (i : ℚ))))
    let conf0 := max (1/2) (min (19/20) (confidenceBase * olsR2 hist))
    let confs := (List.range periods).map (fun (i : ℕ) => conf0 * (1 - 3/100 * (i : ℚ)))
    preds.zip confs
  else
    let preds := (List.range periods).map
      (fun (i : ℕ) => max 0 (olsIntercept hist + olsSlope hist * ((hist.length : ℚ) + (i : ℚ))))
    let base := max (1/2) (min (9/10) (9/10 - |olsSlope hist| / 10))
    let confs := (List.range periods).map (fun (i : ℕ) => base * (1 - 1/20 * (i : ℚ)))
    preds.zip confs

/-- `predict_values_polynomial(historical_data, periods, degree=2,
confidence_base=0.85)`, lines 104–181.  The decay loop at lines 178–179
(factor `1 − 0.04·i`, 1 at `i = 0`) applies to the sklearn branch and to the
moving-average branch, but not to the `len ≤ 5` early return at line 156 nor
to the `len < 3` guard. -/
def predict_values_polynomial (sklearnAvailable : Bool) (hist : List ℚ) (periods : ℕ)
    (confidenceBase : ℚ) : List (ℚ × ℚ) :=
  if hist.length < 3 then List.replicate periods (0, 1/2)
  else if sklearnAvailable then
    let preds := (List.range periods).map
      (fun (i : ℕ) => max 0 (polyEval (polyCoeffs hist) ((hist.length : ℚ) + (i : ℚ))))
    let conf0 := max (1/2) (min (19/20) (confidenceBase * polyR2 hist))
    let confs := (List.range periods).map (fun (i : ℕ) => conf0 * (1 - 4/100 * (i : ℚ)))
    preds.zip confs
  else if hist.length ≤ 5 then
    predict_values_linear false hist periods confidenceBase
  else
    let n := hist.length
    let window := Nat.min 5 (n / 2)
    let lastVals := hist.drop (n - window)
    let avg := lastVals.sum / (lastVals.length : ℚ)
    let slope := if 1 < window then
        (hist.getLastD 0 - hist.getD (n - window) 0) / ((window : ℚ) - 1)
      else 0
    let preds := (List.range periods).map
      (fun (i : ℕ) => max 0 (avg + slope * ((i : ℚ) + 1) * (1 / (1 + 1/10 * (i : ℚ)))))
    let confs := (List.range periods).map
      (fun (i : ℕ) => max (1/2) (confidenceBase - 1/20 * (i : ℚ)) * (1 - 4/100 * (i : ℚ)))
    preds.zip confs

/-- One entry of the `data` list fed to the seasonal model and the ensemble;
only the `total` key is read on the embedded paths. -/
structure DataPoint where
  total : ℚ
deriving DecidableEq

/-- `predict_seasonal_arima(data, periods, confidence_base=0.8)`,
lines 183–266, in the environment where `statsmodels` is unavailable: the
SARIMAX path raises at line 202, is caught at line 250, and the fallback at
lines 251–266 runs.  The SARIMAX success path fits an external library model
and is not embedded.  `rand i` supplies the `random.uniform(0.95, 1.05)` draw
of period `i` (line 260). -/
def predict_seasonal_arima (rand : ℕ → ℚ) (data : List DataPoint) (periods : ℕ)
    (confidenceBase : ℚ) : List (ℚ × ℚ) :=
  if data.length < 4 then List.replicate periods (0, 1/2)
  else
    let avg := (data.map DataPoint.total).sum / (data.length : ℚ)
    (List.range periods).map (fun (i : ℕ) =>
      (max 0 (avg * (1 + (i : ℚ) * (1/100)) * rand i),
        max (1/2) (confidenceBase - 1/20 * (i : ℚ))))

/-- The per-period weight normalisation of `generate_ensemble_prediction`,
lines 302–310: equal thirds when the summed confidence is 0, otherwise each
confidence divided by the sum. -/
def ensembleWeights (linConf polyConf seasonalConf : ℚ) : ℚ × ℚ × ℚ :=
  let totalConf := linConf + polyConf + seasonalConf
  if totalConf = 0 then (1/3, 1/3, 1/3)
  else (linConf / totalConf, polyConf / totalConf, seasonalConf / totalConf)

/-- The per-period combination of `generate_ensemble_prediction`,
lines 297–325: weighted value, weighted confidence ×1.05, clamped to
`[0.5, 0.95]`. -/
def ensembleCombine (lin poly seasonal : ℚ × ℚ) : ℚ × ℚ :=
  let w := ensembleWeights lin.2 poly.2 seasonal.2
  (lin.1 * w.1 + poly.1 * w.2.1 + seasonal.1 * w.2.2,
    max (1/2) (min (19/20)
      ((lin.2 * w.1 + poly.2 * w.2.1 + seasonal.2 * w.2.2) * (21/20))))

/-- `generate_ensemble_prediction(data, periods, confidence_base=0.85)`,
lines 268–327: linear and polynomial forecasts of the `total` series, the
seasonal forecast only when ≥ 4 data points (else the `(0, 0)` placeholder of
line 292), combined per period. -/
def generate_ensemble_prediction (sklearnAvailable : Bool) (rand : ℕ → ℚ)
    (data : List DataPoint) (periods : ℕ) : List (ℚ × ℚ) :=
  if data.length < 2 then List.replicate periods (0, 1/2)
  else
    let hist := data.map DataPoint.total
    let lin := predict_values_linear sklearnAvailable hist periods (17/20)
    let poly := predict_values_polynomial sklearnAvailable hist periods (17/20)
    let seasonal := if 4 ≤ data.length then predict_seasonal_arima rand data periods (17/20)
      else List.replicate periods (0, 0)
    (List.range periods).map (fun i =>
      ensembleCombine (lin.getD i (0, 0)) (poly.getD i (0, 0)) (seasonal.getD i (0, 0)))

/-! ### Forecast formatting — `app/utils/simple_analytics.py`, lines 218–255 -/

/-- One dictionary of the list returned by `format_predictions_for_api`. -/
structure ForecastRow where
  period : String
  value : ℚ
  growth : ℚ
  confidence : ℚ
deriving DecidableEq

/-- `format_predictions_for_api(historical_data, predictions, freq,
start_date)`, lines 218–255.  The period-label strings come from
`generate_date_series(start_date, len(predictions), freq)` (line 235), a
date-formatting helper with no numeric content; they are passed in here as the
`dates` argument.  `zip(predictions, dates)` truncates to the shorter list;
`prev_value` is the last historical value for the first row (0 when there is
no history, line 242) and the previous prediction's raw value thereafter
(line 244); `growth` is `((value − prev)/prev·100) if prev > 0 else 0`
(line 246); `value`, `growth` and `confidence` are rounded to 2 decimals. -/
def format_predictions_for_api (historical : List ℚ) (predictions : List (ℚ × ℚ))
    (dates : List String) : List ForecastRow :=
  (predictions.zip dates).enum.map (fun (p : ℕ × (ℚ × ℚ) × String) =>
    let prevValue := if p.1 = 0 then historical.getLastD 0
      else (predictions.getD (p.1 - 1) (0, 0)).1
    ⟨p.2.2, pyRound2 p.2.1.1,
      pyRound2 (if 0 < prevValue then (p.2.1.1 - prevValue) / prevValue * 100 else 0),
      pyRound2 p.2.1.2⟩)

end Airba

namespace Airba

/-- Claim C2: `calculate_growth_rate` equals `100·(current−previous)/previous`
when `previous ≠ 0`, is `100` when `previous = 0 < current`, is `0` when
`previous = 0` and `current ≤ 0`, and takes the four listed concrete values. -/
theorem claim_C2_growth_rate (current previous : ℚ) :
    (previous ≠ 0 → calculate_growth_rate current previous
        = 100 * (current - previous) / previous) ∧
    (previous = 0 → 0 < current → calculate_growth_rate current previous = 100) ∧
    (previous = 0 → current ≤ 0 → calculate_growth_rate current previous = 0) ∧
    calculate_growth_rate 0 0 = 0 ∧
    calculate_growth_rate 5 0 = 100 ∧
    calculate_growth_rate 0 5 = -100 ∧
    calculate_growth_rate 150 100 = 50 := by
  refine ⟨fun h => ?_, fun h hc => ?_, fun h hc => ?_,
    by norm_num [calculate_growth_rate], by norm_num [calculate_growth_rate],
    by norm_num [calculate_growth_rate], by norm_num [calculate_growth_rate]⟩
  · rw [calculate_growth_rate, if_neg h]; ring
  · rw [calculate_growth_rate, if_pos h, if_pos hc]
  · rw [calculate_growth_rate, if_pos h, if_neg (not_lt.mpr hc)]

/-- Witness for C2 at `current = 7`, `previous = 2`, `previous' = 0`. -/
theorem claim_C2_growth_rate_witness :
    calculate_growth_rate 7 2 = 100 * (7 - 2) / 2 ∧ calculate_growth_rate 7 0 = 100 := by
  exact ⟨(claim_C2_growth_rate 7 2).1 (by norm_num),
    (claim_C2_growth_rate 7 0).2.1 rfl (by norm_num)⟩

/-! ### Statistics claims -/

lemma calculate_statistics_of_length_ge (data : List ℚ) (h : ¬ data.length < 2) :
    calculate_statistics data =
      { mean := np_mean data
        median := np_median data
        min := np_min data
        max := np_max data
        std_dev := np_std data
        variance := np_var data
        range := np_max data - np_min data
        quartiles := [np_percentile data 25, np_percentile data 50, np_percentile data 75]
        skewness :=
          if 0 < np_std data then
            (((data.map (fun x => (x - np_mean data) ^ 3)).sum / (data.length : ℚ) : ℚ) : ℝ)
              / np_std data ^ 3
          else 0
        kurtosis :=
          if 0 < np_std data then
            (((data.map (fun x => (x - np_mean data) ^ 4)).sum / (data.length : ℚ) : ℚ) : ℝ)
              / np_std data ^ 4 - 3
          else 0 } := by
  rw [calculate_statistics, if_neg h]

/-- Claim C8: for every series of fewer than 2 elements, `calculate_statistics`
returns the all-zero summary. -/
theorem claim_C8_short_series (data : List ℚ) (h : data.length < 2) :
    calculate_statistics data = allZeroSummary := by
  rw [calculate_statistics, if_pos h]

/-- Witness for C8 at the empty series and a one-element series. -/
theorem claim_C8_short_series_witness :
    calculate_statistics [] = allZeroSummary ∧ calculate_statistics [3] = allZeroSummary :=
  ⟨claim_C8_short_series [] (by decide), claim_C8_short_series [3] (by decide)⟩

lemma np_mean_const (data : List ℚ) (c : ℚ) (h0 : data ≠ []) (hc : ∀ x ∈ data, x = c) :
    np_mean data = c := by
  have hlen : (data.length : ℚ) ≠ 0 := by
    exact_mod_cast Nat.cast_ne_zero.mpr (List.length_pos.mpr h0).ne'
  have hsum : data.sum = data.length • c := List.sum_eq_card_nsmul data c hc
  rw [np_mean, hsum, nsmul_eq_mul]
  field_simp

lemma np_var_const (data : List ℚ) (c : ℚ) (h0 : data ≠ []) (hc : ∀ x ∈ data, x = c) :
    np_var data = 0 := by
  rw [np_var]
  have : (data.map (fun x => (x - np_mean data) ^ 2)).sum = 0 := by
    apply List.sum_eq_zero
    intro y hy
    rcases List.mem_map.mp hy with ⟨x, hx, rfl⟩
    rw [hc x hx, np_mean_const data c h0 hc, sub_self]
    ring
  rw [this, zero_div]

lemma np_std_const (data : List ℚ) (c : ℚ) (h0 : data ≠ []) (hc : ∀ x ∈ data, x = c) :
    np_std data = 0 := by
  rw [np_std, np_var_const data c h0 hc]
  norm_num

lemma foldl_min_const (xs : List ℚ) (c : ℚ) : ∀ x, x = c → (∀ y ∈ xs, y = c) →
    xs.foldl min x = c := by
  induction xs with
  | nil => intro x hx _; simpa using hx
  | cons a as ih =>
    intro x hx hall
    have ha : a = c := hall a (List.mem_cons_self a as)
    simp only [List.foldl_cons]
    exact ih (min x a) (by rw [hx, ha, min_self]) (fun y hy => hall y (List.mem_cons_of_mem a hy))

lemma foldl_max_const (xs : List ℚ) (c : ℚ) : ∀ x, x = c → (∀ y ∈ xs, y = c) →
    xs.foldl max x = c := by
  induction xs with
  | nil => intro x hx _; simpa using hx
  | cons a as ih =>
    intro x hx hall
    have ha : a = c := hall a (List.mem_cons_self a as)
    simp only [List.foldl_cons]
    exact ih (max x a) (by rw [hx, ha, max_self]) (fun y hy => hall y (List.mem_cons_of_mem a hy))

lemma np_min_const (data : List ℚ) (c : ℚ) (h0 : data ≠ []) (hc : ∀ x ∈ data, x = c) :
    np_min data = c := by
  match data, h0 with
  | x :: xs, _ =>
    exact foldl_min_const xs c x (hc x (List.mem_cons_self x xs))
      (fun y hy => hc y (List.mem_cons_of_mem x hy))

lemma np_max_const (data : List ℚ) (c : ℚ) (h0 : data ≠ []) (hc : ∀ x ∈ data, x = c) :
    np_max data = c := by
  match data, h0 with
  | x :: xs, _ =>
    exact foldl_max_const xs c x (hc x (List.mem_cons_self x xs))
      (fun y hy => hc y (List.mem_cons_of_mem x hy))

lemma getD_of_all_eq (l : List ℚ) (c : ℚ) (i : ℕ) (d : ℚ) (hi : i < l.length)
    (hc : ∀ x ∈ l, x = c) : l.getD i d = c := by
  rw [List.getD_eq_getElem l d hi]
  exact hc _ (l.getElem_mem hi)

lemma np_sorted_all_eq (data : List ℚ) (c : ℚ) (hc : ∀ x ∈ data, x = c) :
    (∀ x ∈ np_sorted data, x = c) ∧ (np_sorted data).length = data.length := by
  have hp : (np_sorted data).Perm data := List.perm_insertionSort (· ≤ ·) data
  exact ⟨fun x hx => hc x (hp.mem_iff.mp hx), hp.length_eq⟩

lemma np_median_const (data : List ℚ) (c : ℚ) (h0 : data ≠ []) (hc : ∀ x ∈ data, x = c) :
    np_median data = c := by
  obtain ⟨hall, hlen⟩ := np_sorted_all_eq data c hc
  have hpos : 0 < (np_sorted data).length := by
    rw [hlen]; exact List.length_pos.mpr h0
  rw [np_median]
  by_cases hpar : (np_sorted data).length % 2 = 1
  · simp only [hpar, if_pos]
    exact getD_of_all_eq _ c _ 0 (Nat.div_lt_self hpos (by norm_num)) hall
  · simp only [hpar, if_neg, if_false]
    rw [getD_of_all_eq _ c _ 0 (by omega) hall,
      getD_of_all_eq _ c _ 0 (Nat.div_lt_self hpos (by norm_num)) hall]
    ring

/-- Claim C9: for every series of at least two elements all equal to a constant
`c`, `calculate_statistics` returns `std_dev = variance = 0`,
`skewness = kurtosis = 0` (the zero-standard-deviation guard), and
`mean = median = min = max = c`. -/
theorem claim_C9_constant_series (data : List ℚ) (c : ℚ) (h2 : 2 ≤ data.length)
    (hc : ∀ x ∈ data, x = c) :
    (calculate_statistics data).std_dev = 0 ∧ (calculate_statistics data).variance = 0 ∧
    (calculate_statistics data).skewness = 0 ∧ (calculate_statistics data).kurtosis = 0 ∧
    (calculate_statistics data).mean = c ∧ (calculate_statistics data).median = c ∧
    (calculate_statistics data).min = c ∧ (calculate_statistics data).max = c := by
  have h0 : data ≠ [] := by
    intro h; rw [h] at h2; simp at h2
  have hstd : np_std data = 0 := np_std_const data c h0 hc
  have hguard : ¬ (0 < np_std data) := by rw [hstd]; exact lt_irrefl 0
  rw [calculate_statistics_of_length_ge data (by omega)]
  refine ⟨hstd, np_var_const data c h0 hc, ?_, ?_, np_mean_const data c h0 hc,
    np_median_const data c h0 hc, np_min_const data c h0 hc, np_max_const data c h0 hc⟩
  · simp only [if_neg hguard]
  · simp only [if_neg hguard]

/-! ### Weekly rollup lemmas -/

lemma head?_append_of_head?_some {α : Type} {l l' : List α} {x : α} (h : l.head? = some x) :
    (l ++ l').head? = some x := by
  cases l with
  | nil => simp at h
  | cons a as => simpa using h

lemma weekFilter_append (ps qs : List DailyItem) (k : ℤ × ℤ) :
    weekFilter (ps ++ qs) k = weekFilter ps k ++ weekFilter qs k := by
  simp [weekFilter, List.filter_append]

lemma weekFilter_singleton_pos (d : DailyItem) (k : ℤ × ℤ) (h : weekKey d = k) :
    weekFilter [d] k = [d] := by
  simp [weekFilter, List.filter, h]

lemma weekFilter_singleton_neg (d : DailyItem) (k : ℤ × ℤ) (h : weekKey d ≠ k) :
    weekFilter [d] k = [] := by
  have hfalse : (weekKey d == k) = false := beq_eq_false_iff_ne.mpr h
  simp [weekFilter, List.filter, hfalse]

lemma bucketKey_update (b : WeekBucket) (d : DailyItem) :
    bucketKey { b with total := b.total + d.total, quantity := b.quantity + d.quantity,
                       orders := b.orders + d.orders, end_date := d.date } = bucketKey b := rfl

lemma weeklyInv_step (ps : List DailyItem) (acc : List WeekBucket) (d : DailyItem)
    (h : WeeklyInv ps acc) : WeeklyInv (ps ++ [d]) (addDayToWeeks acc d) := by
  obtain ⟨hnd, hcov, hb⟩ := h
  rw [addDayToWeeks]
  by_cases hmem : weekKey d ∈ acc.map bucketKey
  · have hany : acc.any (fun b => bucketKey b == weekKey d) = true := by
      rcases List.mem_map.mp hmem with ⟨b, hbmem, hkey⟩
      exact List.any_eq_true.mpr ⟨b, hbmem, by simp [hkey]⟩
    rw [if_pos hany]
    have hkeys : (acc.map (fun b =>
        if bucketKey b = weekKey d then
          { b with total := b.total + d.total, quantity := b.quantity + d.quantity,
                   orders := b.orders + d.orders, end_date := d.date }
        else b)).map bucketKey = acc.map bucketKey := by
      rw [List.map_map]
      apply List.map_congr_left
      intro b _
      by_cases hk : bucketKey b = weekKey d
      · simp only [Function.comp_apply, if_pos hk, bucketKey_update]
      · simp only [Function.comp_apply, if_neg hk]
    refine ⟨by rw [hkeys]; exact hnd, ?_, ?_⟩
    · intro d' hd'
      rw [hkeys]
      rcases List.mem_append.mp hd' with h' | h'
      · exact hcov d' h'
      · rw [List.mem_singleton.mp h']; exact hmem
    · intro b' hb'
      rcases List.mem_map.mp hb' with ⟨b, hbmem, rfl⟩
      have hbc := hb b hbmem
      by_cases hk : bucketKey b = weekKey d
      · rw [if_pos hk]
        rw [bucketKey_update, weekFilter_append,
          weekFilter_singleton_pos d (bucketKey b) hk.symm]
        obtain ⟨x, hx, hxd⟩ :
            ∃ x, (weekFilter ps (bucketKey b)).head? = some x ∧ x.date = b.start_date := by
          cases hh : (weekFilter ps (bucketKey b)).head? with
          | none =>
            have := hbc.2.2.2.1
            rw [hh] at this
            simp at this
          | some x =>
            have := hbc.2.2.2.1
            rw [hh] at this
            exact ⟨x, rfl, by simpa using this⟩
        refine ⟨?_, ?_, ?_, ?_, ?_⟩
        · simp only [List.map_append, List.sum_append, List.map_cons, List.map_nil,
            List.sum_cons, List.sum_nil, add_zero]
          rw [← hbc.1]
        · simp only [List.map_append, List.sum_append, List.map_cons, List.map_nil,
            List.sum_cons, List.sum_nil, add_zero]
          rw [← hbc.2.1]
        · simp only [List.map_append, List.sum_append, List.map_cons, List.map_nil,
            List.sum_cons, List.sum_nil, add_zero]
          rw [← hbc.2.2.1]
        · rw [head?_append_of_head?_some hx]
          simp [hxd]
        · rw [List.getLast?_concat]
          rfl
      · rw [if_neg hk]
        have hkd : weekKey d ≠ bucketKey b := fun h => hk h.symm
        rw [weekFilter_append, weekFilter_singleton_neg d (bucketKey b) hkd,
          List.append_nil]
        exact hbc
  · have hany : ¬ acc.any (fun b => bucketKey b == weekKey d) = true := by
      intro hany
      rcases List.any_eq_true.mp hany with ⟨b, hbmem, hkey⟩
      exact hmem (List.mem_map.mpr ⟨b, hbmem, by simpa using hkey⟩)
    rw [if_neg hany]
    have hnewkey : bucketKey
        { year := (weekKey d).1, week := (weekKey d).2, total := d.total,
          quantity := d.quantity, orders := d.orders,
          start_date := d.date, end_date := d.date } = weekKey d := rfl
    have hps : weekFilter ps (weekKey d) = [] := by
      rw [weekFilter, List.filter_eq_nil_iff]
      intro x hx hbeq
      have : weekKey x = weekKey d := by simpa using hbeq
      exact hmem (this ▸ hcov x hx)
    refine ⟨?_, ?_, ?_⟩
    · rw [List.map_append]
      rw [List.nodup_append]
      refine ⟨hnd, by simp, ?_⟩
      intro k hkmem hkmem'
      simp only [List.map_cons, List.map_nil, List.mem_singleton, hnewkey] at hkmem'
      exact hmem (hkmem' ▸ hkmem)
    · intro d' hd'
      rw [List.map_append]
      rcases List.mem_append.mp hd' with h' | h'
      · exact List.mem_append_left _ (hcov d' h')
      · rw [List.mem_singleton.mp h']
        apply List.mem_append_right
        simp [hnewkey]
    · intro b' hb'
      rcases List.mem_append.mp hb' with h' | h'
      · have hbc := hb b' h'
        have hkd : weekKey d ≠ bucketKey b' :=
          fun h => hmem (h ▸ List.mem_map.mpr ⟨b', h', rfl⟩)
        rw [weekFilter_append, weekFilter_singleton_neg d (bucketKey b') hkd,
          List.append_nil]
        exact hbc
      · rw [List.mem_singleton.mp h']
        rw [hnewkey, weekFilter_append, hps, List.nil_append,
          weekFilter_singleton_pos d (weekKey d) rfl]
        refine ⟨by simp, by simp, by simp, by simp, by simp⟩

lemma weeklyInv_fold (items : List DailyItem) :
    ∀ (ps : List DailyItem) (acc : List WeekBucket), WeeklyInv ps acc →
      WeeklyInv (ps ++ items) (List.foldl addDayToWeeks acc items) := by
  induction items with
  | nil => intro ps acc h; simpa using h
  | cons d rest ih =>
    intro ps acc h
    have h2 := ih (ps ++ [d]) (addDayToWeeks acc d) (weeklyInv_step ps acc d h)
    simpa [List.append_assoc] using h2

lemma weeklyInv_nil : WeeklyInv [] [] := by
  refine ⟨by simp, by simp, by simp⟩

lemma weeklyInv_result (daily : List DailyItem) :
    WeeklyInv daily (List.foldl addDayToWeeks [] daily) := by
  simpa using weeklyInv_fold daily [] [] weeklyInv_nil

lemma generate_weekly_mem (daily : List DailyItem) (r : WeekRow)
    (hr : r ∈ generate_weekly_data daily) :
    ∃ b ∈ List.foldl addDayToWeeks [] daily, addAvgOrder b = r := by
  rw [generate_weekly_data] at hr
  by_cases h0 : daily.isEmpty
  · rw [if_pos h0] at hr; simp at hr
  · rw [if_neg h0] at hr
    have hp := List.perm_insertionSort weekOrder
      ((List.foldl addDayToWeeks [] daily).map addAvgOrder)
    exact List.mem_map.mp (hp.mem_iff.mp hr)

/-- Claim C6: every weekly bucket's total, quantity and order count are exactly
the sums of the matching daily rollups, and `avg_order` is `total/orders` when
`orders > 0`, else 0. -/
theorem claim_C6_weekly_sums (daily : List DailyItem) (r : WeekRow)
    (hr : r ∈ generate_weekly_data daily) :
    r.total = ((daily.filter (fun d => weekKey d == (r.year, r.week))).map DailyItem.total).sum ∧
    r.quantity =
      ((daily.filter (fun d => weekKey d == (r.year, r.week))).map DailyItem.quantity).sum ∧
    r.orders = ((daily.filter (fun d => weekKey d == (r.year, r.week))).map DailyItem.orders).sum ∧
    r.avg_order = (if 0 < r.orders then r.total / (r.orders : ℚ) else 0) := by
  rcases generate_weekly_mem daily r hr with ⟨b, hb, rfl⟩
  have hinv := (weeklyInv_result daily).2.2 b hb
  exact ⟨hinv.1, hinv.2.1, hinv.2.2.1, rfl⟩

/-- Witness for C6: the single-day series 2020-01-06 (ISO week 2 of 2020). -/
theorem claim_C6_weekly_sums_witness :
    (⟨2020, 2, 10, 2, 1, ⟨2020, 1, 6⟩, ⟨2020, 1, 6⟩, 10⟩ : WeekRow) ∈
        generate_weekly_data [⟨⟨2020, 1, 6⟩, 10, 2, 1⟩] ∧
    ((⟨2020, 2, 10, 2, 1, ⟨2020, 1, 6⟩, ⟨2020, 1, 6⟩, 10⟩ : WeekRow).total =
      (([⟨⟨2020, 1, 6⟩, 10, 2, 1⟩] |>.filter
          (fun d => weekKey d == (2020, 2))).map DailyItem.total).sum ∧
     (⟨2020, 2, 10, 2, 1, ⟨2020, 1, 6⟩, ⟨2020, 1, 6⟩, 10⟩ : WeekRow).quantity =
      (([⟨⟨2020, 1, 6⟩, 10, 2, 1⟩] |>.filter
          (fun d => weekKey d == (2020, 2))).map DailyItem.quantity).sum ∧
     (⟨2020, 2, 10, 2, 1, ⟨2020, 1, 6⟩, ⟨2020, 1, 6⟩, 10⟩ : WeekRow).orders =
      (([⟨⟨2020, 1, 6⟩, 10, 2, 1⟩] |>.filter
          (fun d => weekKey d == (2020, 2))).map DailyItem.orders).sum ∧
     (⟨2020, 2, 10, 2, 1, ⟨2020, 1, 6⟩, ⟨2020, 1, 6⟩, 10⟩ : WeekRow).avg_order =
      (if 0 < (⟨2020, 2, 10, 2, 1, ⟨2020, 1, 6⟩, ⟨2020, 1, 6⟩, 10⟩ : WeekRow).orders then
        (⟨2020, 2, 10, 2, 1, ⟨2020, 1, 6⟩, ⟨2020, 1, 6⟩, 10⟩ : WeekRow).total /
          ((⟨2020, 2, 10, 2, 1, ⟨2020, 1, 6⟩, ⟨2020, 1, 6⟩, 10⟩ : WeekRow).orders : ℚ)
       else 0)) := by
  have hiso : (isocalendar ⟨2020, 1, 6⟩).2.1 = 2 := by decide
  have heval : generate_weekly_data [⟨⟨2020, 1, 6⟩, 10, 2, 1⟩] =
      [⟨2020, 2, 10, 2, 1, ⟨2020, 1, 6⟩, ⟨2020, 1, 6⟩, 10⟩] := by
    simp only [generate_weekly_data, List.isEmpty_cons, List.foldl_cons, List.foldl_nil,
      addDayToWeeks, List.any_nil, List.nil_append, List.map_cons, List.map_nil,
      addAvgOrder, weekKey, hiso, Bool.false_eq_true, if_false, List.insertionSort,
      List.orderedInsert]
    norm_num
  have hmem : (⟨2020, 2, 10, 2, 1, ⟨2020, 1, 6⟩, ⟨2020, 1, 6⟩, 10⟩ : WeekRow) ∈
      generate_weekly_data [⟨⟨2020, 1, 6⟩, 10, 2, 1⟩] := by
    rw [heval]; exact List.mem_singleton.mpr rfl
  exact ⟨hmem, claim_C6_weekly_sums _ _ hmem⟩

/-- Counterexample to C7 as stated: 2019-12-30 has ISO calendar year 2020
(`isocalendar()[0]`), yet `generate_weekly_data` files it under the bucket
keyed `(2019, 1)`, using the calendar year `date.year` instead. -/
theorem claim_C7_counterexample :
    generate_weekly_data [⟨⟨2019, 12, 30⟩, 10, 2, 1⟩] =
      [⟨2019, 1, 10, 2, 1, ⟨2019, 12, 30⟩, ⟨2019, 12, 30⟩, 10⟩] ∧
    (isocalendar ⟨2019, 12, 30⟩).1 = 2020 ∧ (2019 : ℤ) ≠ 2020 := by
  have hiso : (isocalendar ⟨2019, 12, 30⟩).2.1 = 1 := by decide
  refine ⟨?_, by decide, by decide⟩
  simp only [generate_weekly_data, List.isEmpty_cons, List.foldl_cons, List.foldl_nil,
    addDayToWeeks, List.any_nil, List.nil_append, List.map_cons, List.map_nil,
    addAvgOrder, weekKey, hiso, Bool.false_eq_true, if_false, List.insertionSort,
    List.orderedInsert]
  norm_num

/-- Claim C7 (amended): `generate_weekly_data` groups each day by the pair
(calendar year of its date, ISO week number of its date) — not the ISO
calendar year — and each bucket's `start_date`/`end_date` are the first and
last constituent dates in input order. -/
theorem claim_C7_amended_weekly_grouping (daily : List DailyItem) :
    (∀ d ∈ daily, ∃ r ∈ generate_weekly_data daily,
        r.year = d.date.year ∧ r.week = (isocalendar d.date).2.1) ∧
    (∀ r ∈ generate_weekly_data daily,
      (daily.filter (fun d => weekKey d == (r.year, r.week))).head?.map DailyItem.date
          = some r.start_date ∧
      (daily.filter (fun d => weekKey d == (r.year, r.week))).getLast?.map DailyItem.date
          = some r.end_date) := by
  constructor
  · intro d hd
    have hcov := (weeklyInv_result daily).2.1 d hd
    rcases List.mem_map.mp hcov with ⟨b, hb, hkey⟩
    refine ⟨addAvgOrder b, ?_, ?_, ?_⟩
    · rw [generate_weekly_data, if_neg (by rintro h; rw [List.isEmpty_iff.mp h] at hd; simp at hd)]
      have hp := List.perm_insertionSort weekOrder
        ((List.foldl addDayToWeeks [] daily).map addAvgOrder)
      exact hp.mem_iff.mpr (List.mem_map.mpr ⟨b, hb, rfl⟩)
    · have : b.year = d.date.year := congrArg Prod.fst hkey
      exact this
    · have : b.week = (isocalendar d.date).2.1 := congrArg Prod.snd hkey
      exact this
  · intro r hr
    rcases generate_weekly_mem daily r hr with ⟨b, hb, rfl⟩
    have hinv := (weeklyInv_result daily).2.2 b hb
    exact ⟨hinv.2.2.2.1, hinv.2.2.2.2⟩

/-- Witness for the amended C7 on the single-day series 2019-12-30: the day is
assigned to the bucket with its calendar year 2019 and ISO week number 1. -/
theorem claim_C7_amended_weekly_grouping_witness :
    ∃ r ∈ generate_weekly_data [⟨⟨2019, 12, 30⟩, 7, 1, 1⟩],
      r.year = (⟨2019, 12, 30⟩ : PyDate).year ∧
      r.week = (isocalendar ⟨2019, 12, 30⟩).2.1 :=
  (claim_C7_amended_weekly_grouping [⟨⟨2019, 12, 30⟩, 7, 1, 1⟩]).1
    ⟨⟨2019, 12, 30⟩, 7, 1, 1⟩ (List.mem_singleton.mpr rfl)

/-! ### Yearly rollup lemmas -/

lemma pyRound2_zero : pyRound2 0 = 0 := by
  norm_num [pyRound2, roundHalfEven]

lemma addMonthToYears_years (acc : List YearBucket) (m : MonthItem) :
    (addMonthToYears acc m).map YearBucket.year =
      if m.year ∈ acc.map YearBucket.year then acc.map YearBucket.year
      else acc.map YearBucket.year ++ [m.year] := by
  rw [addMonthToYears]
  by_cases hmem : m.year ∈ acc.map YearBucket.year
  · have hany : acc.any (fun b => b.year == m.year) = true := by
      rcases List.mem_map.mp hmem with ⟨b, hbmem, hkey⟩
      exact List.any_eq_true.mpr ⟨b, hbmem, by simp [hkey]⟩
    rw [if_pos hany, if_pos hmem, List.map_map]
    apply List.map_congr_left
    intro b _
    by_cases hk : b.year = m.year
    · simp only [Function.comp_apply, if_pos hk]
    · simp only [Function.comp_apply, if_neg hk]
  · have hany : ¬ acc.any (fun b => b.year == m.year) = true := by
      intro hany
      rcases List.any_eq_true.mp hany with ⟨b, hbmem, hkey⟩
      exact hmem (List.mem_map.mpr ⟨b, hbmem, by simpa using hkey⟩)
    rw [if_neg hany, if_neg hmem, List.map_append]
    rfl

lemma foldl_years_pairwise (ms : List MonthItem) :
    ∀ (acc : List YearBucket),
      (acc.map YearBucket.year).Pairwise (· < ·) →
      (∀ y ∈ acc.map YearBucket.year, ∀ m ∈ ms, y ≤ m.year) →
      (ms.map MonthItem.year).Pairwise (· ≤ ·) →
      ((List.foldl addMonthToYears acc ms).map YearBucket.year).Pairwise (· < ·) := by
  induction ms with
  | nil => intro acc h _ _; simpa using h
  | cons m rest ih =>
    intro acc hacc hle hsort
    rw [List.map_cons, List.pairwise_cons] at hsort
    obtain ⟨hm_rest, hrest⟩ := hsort
    rw [List.foldl_cons]
    apply ih (addMonthToYears acc m)
    · rw [addMonthToYears_years]
      by_cases hmem : m.year ∈ acc.map YearBucket.year
      · rwa [if_pos hmem]
      · rw [if_neg hmem, List.pairwise_append]
        refine ⟨hacc, by simp, ?_⟩
        intro y hy y' hy'
        rw [List.mem_singleton.mp hy']
        exact lt_of_le_of_ne (hle y hy m (List.mem_cons_self m rest))
          (fun h => hmem (h ▸ hy))
    · intro y hy m' hm'
      rw [addMonthToYears_years] at hy
      by_cases hmem : m.year ∈ acc.map YearBucket.year
      · rw [if_pos hmem] at hy
        exact hle y hy m' (List.mem_cons_of_mem m hm')
      · rw [if_neg hmem] at hy
        rcases List.mem_append.mp hy with h' | h'
        · exact hle y h' m' (List.mem_cons_of_mem m hm')
        · rw [List.mem_singleton.mp h']
          exact hm_rest m'.year (List.mem_map.mpr ⟨m', hm', rfl⟩)
    · exact hrest

lemma yearRowsAux_map_year : ∀ (bs : List YearBucket) (prev : Option ℚ),
    (yearRowsAux prev bs).map YearRow.year = bs.map YearBucket.year
  | [], _ => rfl
  | b :: rest, prev => by
    simp only [yearRowsAux, List.map_cons]
    rw [yearRowsAux_map_year rest (some b.total)]

lemma generate_yearly_eq_of_sorted (monthly : List MonthItem)
    (hsort : (monthly.map MonthItem.year).Pairwise (· ≤ ·)) :
    generate_yearly_data monthly =
      yearRowsAux none (List.foldl addMonthToYears [] monthly) := by
  rw [generate_yearly_data]
  by_cases h0 : monthly.isEmpty
  · rw [if_pos h0, List.isEmpty_iff.mp h0]
    rfl
  · rw [if_neg h0]
    apply List.Sorted.insertionSort_eq
    have hpair := foldl_years_pairwise monthly [] (by simp) (by simp) hsort
    rw [← yearRowsAux_map_year _ none, List.pairwise_map] at hpair
    exact hpair.imp (fun h => le_of_lt h)

lemma yearRowsAux_none_first (bs : List YearBucket) (r0 : YearRow)
    (h : (yearRowsAux none bs).get? 0 = some r0) : r0.growth = 0 := by
  cases bs with
  | nil => simp [yearRowsAux] at h
  | cons b rest =>
    simp only [yearRowsAux, List.get?_cons_zero, Option.some.injEq] at h
    rw [← h, pyRound2_zero]

lemma yearRowsAux_some_first (pt : ℚ) (bs : List YearBucket) (r0 : YearRow)
    (h : (yearRowsAux (some pt) bs).get? 0 = some r0) :
    r0.growth = if 0 < pt then pyRound2 ((r0.total - pt) / pt * 100) else 0 := by
  cases bs with
  | nil => simp [yearRowsAux] at h
  | cons b rest =>
    simp only [yearRowsAux, List.get?_cons_zero, Option.some.injEq] at h
    subst h
    dsimp only
    by_cases hpt : 0 < pt
    · rw [if_pos hpt, if_pos hpt]
    · rw [if_neg hpt, if_neg hpt, pyRound2_zero]

lemma yearRowsAux_adjacent : ∀ (bs : List YearBucket) (prev : Option ℚ) (i : ℕ)
    (ri rj : YearRow), (yearRowsAux prev bs).get? i = some ri →
    (yearRowsAux prev bs).get? (i + 1) = some rj →
    rj.growth = if 0 < ri.total then pyRound2 ((rj.total - ri.total) / ri.total * 100) else 0 := by
  intro bs
  induction bs with
  | nil => intro prev i ri rj h1 _; simp [yearRowsAux] at h1
  | cons b rest ih =>
    intro prev i ri rj h1 h2
    cases i with
    | zero =>
      simp only [yearRowsAux, List.get?_cons_zero, Option.some.injEq] at h1
      simp only [yearRowsAux, List.get?_cons_succ] at h2
      subst h1
      exact yearRowsAux_some_first b.total rest rj h2
    | succ n =>
      simp only [yearRowsAux, List.get?_cons_succ] at h1 h2
      exact ih (some b.total) n ri rj h1 h2

/-- Counterexample to C3 as stated: with a zero-revenue 2020 followed by a
positive 2021, the yearly rollup reports growth 0 for 2021, not the 100 that
the §4.3 growth-rate policy (`calculate_growth_rate 5 0 = 100`) would give. -/
theorem claim_C3_counterexample :
    generate_yearly_data [⟨2020, 0, 0, 0⟩, ⟨2021, 5, 0, 0⟩] =
      [⟨2020, 0, 0, 0, 0, 0⟩, ⟨2021, 5, 0, 0, 0, 0⟩] ∧
    calculate_growth_rate 5 0 = 100 ∧ ((0 : ℚ) ≠ 100) := by
  refine ⟨?_, by norm_num [calculate_growth_rate], by norm_num⟩
  simp only [generate_yearly_data, List.isEmpty_cons, Bool.false_eq_true, if_false,
    List.foldl_cons, List.foldl_nil, addMonthToYears, List.any_nil, List.any_cons,
    List.nil_append, yearRowsAux, List.insertionSort, List.orderedInsert]
  norm_num [yearOrder, pyRound2, roundHalfEven]

/-- Claim C3 (amended): in the yearly rollup of year-sorted monthly data, the
first year's `growth` is 0, and every later year's `growth` is the percent
change versus the previous year's total, rounded to two decimals, when that
previous total is positive — and 0 otherwise, including when the previous
total is 0 and the current total is positive (the code tests `prev_total > 0`
and does not apply the §4.3 sentinel of 100). -/
theorem claim_C3_amended_yearly_growth (monthly : List MonthItem)
    (hsort : (monthly.map MonthItem.year).Pairwise (· ≤ ·)) :
    (∀ r0, (generate_yearly_data monthly).get? 0 = some r0 → r0.growth = 0) ∧
    (∀ i ri rj, (generate_yearly_data monthly).get? i = some ri →
      (generate_yearly_data monthly).get? (i + 1) = some rj →
      rj.growth =
        if 0 < ri.total then pyRound2 ((rj.total - ri.total) / ri.total * 100) else 0) := by
  rw [generate_yearly_eq_of_sorted monthly hsort]
  exact ⟨fun r0 h => yearRowsAux_none_first _ r0 h,
    fun i ri rj h1 h2 => yearRowsAux_adjacent _ none i ri rj h1 h2⟩

/-- Witness for the amended C3: monthly totals 10 (2020) and 15 (2021) give
first-year growth 0 and second-year growth 50. -/
theorem claim_C3_amended_yearly_growth_witness :
    (generate_yearly_data [⟨2020, 10, 0, 1⟩, ⟨2021, 15, 0, 1⟩]).get? 1 =
        some ⟨2021, 15, 0, 1, 15, 50⟩ ∧
    (⟨2021, 15, 0, 1, 15, 50⟩ : YearRow).growth =
      (if 0 < (⟨2020, 10, 0, 1, 10, 0⟩ : YearRow).total then
        pyRound2 (((⟨2021, 15, 0, 1, 15, 50⟩ : YearRow).total -
            (⟨2020, 10, 0, 1, 10, 0⟩ : YearRow).total) /
          (⟨2020, 10, 0, 1, 10, 0⟩ : YearRow).total * 100)
       else 0) := by
  have heval : generate_yearly_data [⟨2020, 10, 0, 1⟩, ⟨2021, 15, 0, 1⟩] =
      [⟨2020, 10, 0, 1, 10, 0⟩, ⟨2021, 15, 0, 1, 15, 50⟩] := by
    simp only [generate_yearly_data, List.isEmpty_cons, Bool.false_eq_true, if_false,
      List.foldl_cons, List.foldl_nil, addMonthToYears, List.any_nil, List.any_cons,
      List.nil_append, yearRowsAux, List.insertionSort, List.orderedInsert]
    norm_num [yearOrder, pyRound2, roundHalfEven]
  have h0 : (generate_yearly_data [⟨2020, 10, 0, 1⟩, ⟨2021, 15, 0, 1⟩]).get? 0 =
      some ⟨2020, 10, 0, 1, 10, 0⟩ := by rw [heval]; rfl
  have h1 : (generate_yearly_data [⟨2020, 10, 0, 1⟩, ⟨2021, 15, 0, 1⟩]).get? 1 =
      some ⟨2021, 15, 0, 1, 15, 50⟩ := by rw [heval]; rfl
  exact ⟨h1, (claim_C3_amended_yearly_growth _ (by decide)).2 0 _ _ h0 h1⟩

/-! ### Forecast model lemmas -/

lemma getD_map_range {α : Type} (f : ℕ → α) {n i : ℕ} (hi : i < n) (d : α) :
    ((List.range n).map f).getD i d = f i := by
  simp [List.getD_eq_getElem?_getD, List.getElem?_map, List.getElem?_range, hi]

lemma getD_zip_map_range {α β : Type} (f : ℕ → α) (g : ℕ → β) {n i : ℕ} (hi : i < n)
    (d : α × β) :
    (((List.range n).map f).zip ((List.range n).map g)).getD i d = (f i, g i) := by
  rw [List.zip_map']
  exact getD_map_range _ hi d

lemma getD_replicate_eq {α : Type} (a d : α) {n i : ℕ} (hi : i < n) :
    (List.replicate n a).getD i d = a := by
  simp [List.getD_eq_getElem?_getD, List.getElem?_replicate, hi]

lemma mem_zip_map_range {α β : Type} (f : ℕ → α) (g : ℕ → β) {n : ℕ} {p : α × β}
    (hp : p ∈ ((List.range n).map f).zip ((List.range n).map g)) :
    ∃ i, i < n ∧ p = (f i, g i) := by
  rw [List.zip_map'] at hp
  rcases List.mem_map.mp hp with ⟨i, hi, rfl⟩
  exact ⟨i, List.mem_range.mp hi, rfl⟩

lemma get?_zero_zip_map_range {α β : Type} (f : ℕ → α) (g : ℕ → β) {n : ℕ} {p : α × β}
    (hp : (((List.range n).map f).zip ((List.range n).map g)).get? 0 = some p) :
    p = (f 0, g 0) := by
  rw [List.zip_map', List.get?_eq_getElem?, List.getElem?_map] at hp
  cases hn : (List.range n)[0]? with
  | none => rw [hn] at hp; simp at hp
  | some j =>
    rcases List.getElem?_eq_some.mp hn with ⟨hlt, hval⟩
    rw [List.getElem_range] at hval
    rw [hn] at hp
    rw [← hval] at hp
    simpa [eq_comm] using hp

lemma get?_zero_replicate {α : Type} {a p : α} {n : ℕ}
    (hp : (List.replicate n a).get? 0 = some p) : p = a := by
  rw [List.get?_eq_getElem?, List.getElem?_replicate] at hp
  by_cases hn : 0 < n
  · rw [if_pos hn] at hp; simpa [eq_comm] using hp
  · rw [if_neg hn] at hp; simp at hp

lemma mul_decay_le {c f bound : ℚ} (hc0 : 0 ≤ c) (hc : c ≤ bound) (hb : 0 ≤ bound)
    (hf : f ≤ 1) : c * f ≤ bound := by
  rcases le_or_lt 0 f with h0 | h0
  · have h := mul_le_mul_of_nonneg_left hf hc0
    rw [mul_one] at h
    exact h.trans hc
  · exact (mul_nonpos_of_nonneg_of_nonpos hc0 h0.le).trans hb

lemma decay_le_one (r : ℚ) (hr : 0 ≤ r) (i : ℕ) : 1 - r * (i : ℚ) ≤ 1 := by
  have : 0 ≤ r * (i : ℚ) := mul_nonneg hr (Nat.cast_nonneg i)
  linarith

lemma predict_values_linear_bounds (sk : Bool) (hist : List ℚ) (periods : ℕ) (base : ℚ) :
    ∀ p ∈ predict_values_linear sk hist periods base, 0 ≤ p.1 ∧ p.2 ≤ 19/20 := by
  intro p hp
  rw [predict_values_linear] at hp
  by_cases h2 : hist.length < 2
  · rw [if_pos h2] at hp
    rw [List.eq_of_mem_replicate hp]
    norm_num
  · rw [if_neg h2] at hp
    cases sk with
    | true =>
      rw [if_pos rfl] at hp
      rcases mem_zip_map_range _ _ hp with ⟨i, _, rfl⟩
      refine ⟨le_max_left 0 _, ?_⟩
      exact mul_decay_le (le_trans (by norm_num) (le_max_left _ _))
        (max_le (by norm_num) (min_le_left _ _)) (by norm_num)
        (decay_le_one _ (by norm_num) i)
    | false =>
      rw [if_neg (by simp)] at hp
      rcases mem_zip_map_range _ _ hp with ⟨i, _, rfl⟩
      refine ⟨le_max_left 0 _, ?_⟩
      exact mul_decay_le (le_trans (by norm_num) (le_max_left _ _))
        (max_le (by norm_num) ((min_le_left _ _).trans (by norm_num))) (by norm_num)
        (decay_le_one _ (by norm_num) i)

lemma predict_values_linear_first (sk : Bool) (hist : List ℚ) (periods : ℕ) (base : ℚ)
    (p : ℚ × ℚ) (hp : (predict_values_linear sk hist periods base).get? 0 = some p) :
    1/2 ≤ p.2 := by
  rw [predict_values_linear] at hp
  by_cases h2 : hist.length < 2
  · rw [if_pos h2] at hp
    rw [get?_zero_replicate hp]
  · rw [if_neg h2] at hp
    cases sk with
    | true =>
      rw [if_pos rfl] at hp
      dsimp only at hp
      rw [get?_zero_zip_map_range _ _ hp]
      simp
    | false =>
      rw [if_neg (by simp)] at hp
      dsimp only at hp
      rw [get?_zero_zip_map_range _ _ hp]
      simp

lemma predict_values_polynomial_bounds (sk : Bool) (hist : List ℚ) (periods : ℕ) (base : ℚ)
    (hb : base ≤ 19/20) :
    ∀ p ∈ predict_values_polynomial sk hist periods base, 0 ≤ p.1 ∧ p.2 ≤ 19/20 := by
  intro p hp
  rw [predict_values_polynomial] at hp
  by_cases h3 : hist.length < 3
  · rw [if_pos h3] at hp
    rw [List.eq_of_mem_replicate hp]
    norm_num
  · rw [if_neg h3] at hp
    cases sk with
    | true =>
      rw [if_pos rfl] at hp
      rcases mem_zip_map_range _ _ hp with ⟨i, _, rfl⟩
      refine ⟨le_max_left 0 _, ?_⟩
      exact mul_decay_le (le_trans (by norm_num) (le_max_left _ _))
        (max_le (by norm_num) (min_le_left _ _)) (by norm_num)
        (decay_le_one _ (by norm_num) i)
    | false =>
      rw [if_neg (by simp)] at hp
      by_cases h5 : hist.length ≤ 5
      · rw [if_pos h5] at hp
        exact predict_values_linear_bounds false hist periods base p hp
      · rw [if_neg h5] at hp
        rcases mem_zip_map_range _ _ hp with ⟨i, _, rfl⟩
        refine ⟨le_max_left 0 _, ?_⟩
        have hup : max (1/2) (base - 1/20 * (i : ℚ)) ≤ 19/20 := by
          apply max_le (by norm_num)
          have : (0 : ℚ) ≤ 1/20 * (i : ℚ) := by positivity
          linarith
        exact mul_decay_le (le_trans (by norm_num) (le_max_left _ _)) hup (by norm_num)
          (decay_le_one _ (by norm_num) i)

lemma predict_values_polynomial_first (sk : Bool) (hist : List ℚ) (periods : ℕ) (base : ℚ)
    (p : ℚ × ℚ) (hp : (predict_values_polynomial sk hist periods base).get? 0 = some p) :
    1/2 ≤ p.2 := by
  rw [predict_values_polynomial] at hp
  by_cases h3 : hist.length < 3
  · rw [if_pos h3] at hp
    rw [get?_zero_replicate hp]
  · rw [if_neg h3] at hp
    cases sk with
    | true =>
      rw [if_pos rfl] at hp
      dsimp only at hp
      rw [get?_zero_zip_map_range _ _ hp]
      simp
    | false =>
      rw [if_neg (by simp)] at hp
      by_cases h5 : hist.length ≤ 5
      · rw [if_pos h5] at hp
        exact predict_values_linear_first false hist periods base p hp
      · rw [if_neg h5] at hp
        dsimp only at hp
        rw [get?_zero_zip_map_range _ _ hp]
        simp

lemma predict_seasonal_arima_bounds (rand : ℕ → ℚ) (data : List DataPoint) (periods : ℕ)
    (base : ℚ) (hb : base ≤ 19/20) :
    ∀ p ∈ predict_seasonal_arima rand data periods base,
      0 ≤ p.1 ∧ 1/2 ≤ p.2 ∧ p.2 ≤ 19/20 := by
  intro p hp
  rw [predict_seasonal_arima] at hp
  by_cases h4 : data.length < 4
  · rw [if_pos h4] at hp
    rw [List.eq_of_mem_replicate hp]
    norm_num
  · rw [if_neg h4] at hp
    dsimp only at hp
    rcases List.mem_map.mp hp with ⟨i, _, rfl⟩
    refine ⟨le_max_left 0 _, le_max_left _ _, ?_⟩
    apply max_le (by norm_num)
    have : (0 : ℚ) ≤ 1/20 * (i : ℚ) := by positivity
    linarith

/-- Counterexample to C1 as stated: the linear model without sklearn on the
history `[0, 10]` (slope 10, heuristic base confidence 0.5) reports, for the
second forecast period, the pair `(30, 0.475)` — a confidence strictly below
the claimed lower bound 0.5, because the per-period decay is applied after the
clamp. -/
theorem claim_C1_counterexample :
    (predict_values_linear false [0, 10] 2 (9/10)).get? 1 = some (30, 19/40) ∧
    ¬ ((1/2 : ℚ) ≤ 19/40) := by
  constructor
  · have hslope : olsSlope [0, 10] = 10 := by
      norm_num [olsSlope, List.enum, List.enumFrom, List.range_succ]
    have hinter : olsIntercept [0, 10] = 0 := by
      norm_num [olsIntercept, hslope, List.range_succ]
    rw [predict_values_linear, if_neg (by norm_num), if_neg (by simp)]
    dsimp only
    rw [List.zip_map']
    rw [List.get?_eq_getElem?, List.getElem?_map]
    norm_num [List.getElem?_range, hslope, hinter]
  · norm_num

/-- Claim C1 (amended): for every model, branch, history and horizon, every
forecast value is ≥ 0 and every confidence is ≤ 0.95; the first period's
confidence is ≥ 0.5 (as is every seasonal-fallback confidence), but — per the
counterexample — confidences of later periods may drop below 0.5, since the
per-period decay multiplies the already-clamped value. -/
theorem claim_C1_amended_model_bounds (sk : Bool) (hist : List ℚ) (periods : ℕ)
    (rand : ℕ → ℚ) (data : List DataPoint) (_hnn : ∀ x ∈ hist, 0 ≤ x) :
    (∀ p ∈ predict_values_linear sk hist periods (9/10), 0 ≤ p.1 ∧ p.2 ≤ 19/20) ∧
    (∀ p, (predict_values_linear sk hist periods (9/10)).get? 0 = some p → 1/2 ≤ p.2) ∧
    (∀ p ∈ predict_values_polynomial sk hist periods (17/20), 0 ≤ p.1 ∧ p.2 ≤ 19/20) ∧
    (∀ p, (predict_values_polynomial sk hist periods (17/20)).get? 0 = some p → 1/2 ≤ p.2) ∧
    (∀ p ∈ predict_seasonal_arima rand data periods (4/5),
      0 ≤ p.1 ∧ 1/2 ≤ p.2 ∧ p.2 ≤ 19/20) :=
  ⟨predict_values_linear_bounds sk hist periods (9/10),
   fun p hp => predict_values_linear_first sk hist periods (9/10) p hp,
   predict_values_polynomial_bounds sk hist periods (17/20) (by norm_num),
   fun p hp => predict_values_polynomial_first sk hist periods (17/20) p hp,
   predict_seasonal_arima_bounds rand data periods (4/5) (by norm_num)⟩

/-- Witness for the amended C1: the linear model without sklearn on `[1, 2]`
with one period forecasts `(3, 0.8)`, whose value is ≥ 0 and whose confidence
lies in `[0.5, 0.95]`. -/
theorem claim_C1_amended_model_bounds_witness :
    (predict_values_linear false [1, 2] 1 (9/10)).get? 0 = some (3, 4/5) ∧
    (0 : ℚ) ≤ (3, (4/5 : ℚ)).1 ∧ ((3 : ℚ), (4/5 : ℚ)).2 ≤ 19/20 ∧
    (1/2 : ℚ) ≤ ((3 : ℚ), (4/5 : ℚ)).2 := by
  have heval : (predict_values_linear false [1, 2] 1 (9/10)).get? 0 = some (3, 4/5) := by
    have hslope : olsSlope [1, 2] = 1 := by
      norm_num [olsSlope, List.enum, List.enumFrom, List.range_succ]
    have hinter : olsIntercept [1, 2] = 1 := by
      norm_num [olsIntercept, hslope, List.range_succ]
    rw [predict_values_linear, if_neg (by norm_num), if_neg (by simp)]
    dsimp only
    rw [List.zip_map']
    rw [List.get?_eq_getElem?, List.getElem?_map]
    norm_num [List.getElem?_range, hslope, hinter]
  have h := claim_C1_amended_model_bounds false [1, 2] 1 (fun _ => 1) []
    (by intro x hx; fin_cases hx <;> norm_num)
  have hmem : ((3 : ℚ), (4/5 : ℚ)) ∈ predict_values_linear false [1, 2] 1 (9/10) :=
    List.get?_mem heval
  exact ⟨heval, (h.1 _ hmem).1, (h.1 _ hmem).2, h.2.1 _ heval⟩

/-! ### Ensemble lemmas -/

lemma generate_ensemble_getD (sk : Bool) (rand : ℕ → ℚ) (data : List DataPoint)
    (periods i : ℕ) (h2 : ¬ data.length < 2) (hi : i < periods) :
    (generate_ensemble_prediction sk rand data periods).getD i (0, 0) =
      ensembleCombine
        ((predict_values_linear sk (data.map DataPoint.total) periods (17/20)).getD i (0, 0))
        ((predict_values_polynomial sk (data.map DataPoint.total) periods (17/20)).getD i (0, 0))
        ((if 4 ≤ data.length then predict_seasonal_arima rand data periods (17/20)
          else List.replicate periods (0, 0)).getD i (0, 0)) := by
  rw [generate_ensemble_prediction, if_neg h2]
  dsimp only
  exact getD_map_range _ hi _

lemma ensembleCombine_seasonal_zero (lp pp : ℚ × ℚ) :
    (lp.2 + pp.2 ≠ 0 →
      (ensembleCombine lp pp (0, 0)).1 =
        lp.1 * (lp.2 / (lp.2 + pp.2)) + pp.1 * (pp.2 / (lp.2 + pp.2))) ∧
    (lp.2 + pp.2 = 0 → ensembleCombine lp pp (0, 0) = ((lp.1 + pp.1) * (1/3), 1/2)) := by
  constructor
  · intro ht
    rw [ensembleCombine, ensembleWeights]
    dsimp only
    rw [if_neg (by rw [add_zero]; exact ht)]
    dsimp only
    ring
  · intro ht
    rw [ensembleCombine, ensembleWeights]
    dsimp only
    rw [if_pos (by rw [add_zero]; exact ht)]
    dsimp only
    have hval : lp.1 * (1/3) + pp.1 * (1/3) + 0 * (1/3) = (lp.1 + pp.1) * (1/3) := by ring
    have hconf : (lp.2 * (1/3) + pp.2 * (1/3) + 0 * (1/3)) * (21/20) = 0 := by
      have : lp.2 * (1/3) + pp.2 * (1/3) + 0 * (1/3) = (lp.2 + pp.2) * (1/3) := by ring
      rw [this, ht, zero_mul, zero_mul]
    rw [hval, hconf]
    rw [min_eq_right (by norm_num), max_eq_left (by norm_num)]

/-- Claim C5: per forecast period the ensemble combiner normalises the three
confidences into weights `conf_k / Σconf` when the sum is nonzero (and those
weights sum to 1), falls back to equal thirds when all three confidences are
0, takes the weighted sum of values as the ensemble value, and takes the
weighted sum of confidences ×1.05 clamped to `[0.5, 0.95]` as the ensemble
confidence. -/
theorem claim_C5_ensemble_combination (sk : Bool) (rand : ℕ → ℚ) (data : List DataPoint)
    (periods i : ℕ) (h2 : 2 ≤ data.length) (hi : i < periods) :
    (generate_ensemble_prediction sk rand data periods).getD i (0, 0) =
      ensembleCombine
        ((predict_values_linear sk (data.map DataPoint.total) periods (17/20)).getD i (0, 0))
        ((predict_values_polynomial sk (data.map DataPoint.total) periods (17/20)).getD i (0, 0))
        ((if 4 ≤ data.length then predict_seasonal_arima rand data periods (17/20)
          else List.replicate periods (0, 0)).getD i (0, 0)) ∧
    (∀ lp pp sp : ℚ × ℚ,
      (lp.2 + pp.2 + sp.2 ≠ 0 →
        ensembleWeights lp.2 pp.2 sp.2 =
          (lp.2 / (lp.2 + pp.2 + sp.2), pp.2 / (lp.2 + pp.2 + sp.2),
            sp.2 / (lp.2 + pp.2 + sp.2)) ∧
        (ensembleWeights lp.2 pp.2 sp.2).1 + (ensembleWeights lp.2 pp.2 sp.2).2.1 +
          (ensembleWeights lp.2 pp.2 sp.2).2.2 = 1) ∧
      ((lp.2 = 0 ∧ pp.2 = 0 ∧ sp.2 = 0) →
        ensembleWeights lp.2 pp.2 sp.2 = (1/3, 1/3, 1/3)) ∧
      (ensembleCombine lp pp sp).1 =
        lp.1 * (ensembleWeights lp.2 pp.2 sp.2).1 +
          pp.1 * (ensembleWeights lp.2 pp.2 sp.2).2.1 +
          sp.1 * (ensembleWeights lp.2 pp.2 sp.2).2.2 ∧
      (ensembleCombine lp pp sp).2 =
        max (1/2) (min (19/20)
          ((lp.2 * (ensembleWeights lp.2 pp.2 sp.2).1 +
            pp.2 * (ensembleWeights lp.2 pp.2 sp.2).2.1 +
            sp.2 * (ensembleWeights lp.2 pp.2 sp.2).2.2) * (21/20)))) := by
  refine ⟨generate_ensemble_getD sk rand data periods i (by omega) hi, ?_⟩
  intro lp pp sp
  refine ⟨fun ht => ?_, fun hz => ?_, rfl, rfl⟩
  · have hw : ensembleWeights lp.2 pp.2 sp.2 =
        (lp.2 / (lp.2 + pp.2 + sp.2), pp.2 / (lp.2 + pp.2 + sp.2),
          sp.2 / (lp.2 + pp.2 + sp.2)) := by
      rw [ensembleWeights]
      rw [if_neg ht]
    refine ⟨hw, ?_⟩
    rw [hw]
    dsimp only
    rw [div_add_div_same, div_add_div_same, div_self ht]
  · rcases hz with ⟨hl, hp, hs⟩
    rw [ensembleWeights]
    rw [if_pos (by rw [hl, hp, hs]; ring)]

/-- Witness for C5: with history `[1, 2]` and one period, the combiner's
weights for confidences `(0.8, 0.5, 0)` sum to 1 and the ensemble entry is the
combined pair. -/
theorem claim_C5_ensemble_combination_witness :
    (generate_ensemble_prediction false (fun _ => 1) [⟨1⟩, ⟨2⟩] 1).getD 0 (0, 0) =
      ensembleCombine
        ((predict_values_linear false [1, 2] 1 (17/20)).getD 0 (0, 0))
        ((predict_values_polynomial false [1, 2] 1 (17/20)).getD 0 (0, 0))
        ((if 4 ≤ ([⟨1⟩, ⟨2⟩] : List DataPoint).length then
            predict_seasonal_arima (fun _ => 1) [⟨1⟩, ⟨2⟩] 1 (17/20)
          else List.replicate 1 (0, 0)).getD 0 (0, 0)) ∧
    (ensembleWeights (4/5) (1/2) 0).1 + (ensembleWeights (4/5) (1/2) 0).2.1 +
      (ensembleWeights (4/5) (1/2) 0).2.2 = 1 := by
  have h := claim_C5_ensemble_combination false (fun _ => 1) [⟨1⟩, ⟨2⟩] 1 0
    (by norm_num) (by norm_num)
  refine ⟨h.1, ?_⟩
  exact ((h.2 (3, 4/5) (0, 1/2) (0, 0)).1 (by norm_num)).2

/-- Counterexample to C10's tail: with history `[0, 8]` and 41 periods, at
period 40 the linear confidence is −0.5 and the polynomial 0.5, the summed
confidence is 0, so the combiner falls back to equal thirds — the seasonal
placeholder receives weight 1/3, not 0, and the ensemble value 112 is the
equal-weighted third of linear + polynomial, not their confidence-weighted
average. -/
theorem claim_C10_counterexample :
    ((predict_values_linear false [0, 8] 41 (17/20)).getD 40 (0, 0)).2 = -(1/2) ∧
    ((predict_values_polynomial false [0, 8] 41 (17/20)).getD 40 (0, 0)).2 = 1/2 ∧
    ensembleWeights (-(1/2)) (1/2) 0 = (1/3, 1/3, 1/3) ∧
    (generate_ensemble_prediction false (fun _ => 1) [⟨0⟩, ⟨8⟩] 41).getD 40 (0, 0) =
      (112, 1/2) := by
  have hslope : olsSlope [0, 8] = 8 := by
    norm_num [olsSlope, List.enum, List.enumFrom, List.range_succ]
  have hinter : olsIntercept [0, 8] = 0 := by
    norm_num [olsIntercept, hslope, List.range_succ]
  have hlin : (predict_values_linear false [0, 8] 41 (17/20)).getD 40 (0, 0) =
      (336, -(1/2)) := by
    rw [predict_values_linear, if_neg (by norm_num), if_neg (by simp)]
    dsimp only
    rw [getD_zip_map_range _ _ (by norm_num)]
    norm_num [hslope, hinter]
  have hpoly : (predict_values_polynomial false [0, 8] 41 (17/20)).getD 40 (0, 0) =
      (0, 1/2) := by
    rw [predict_values_polynomial, if_pos (by norm_num)]
    rw [getD_replicate_eq _ _ (by norm_num)]
  have hw : ensembleWeights (-(1/2)) (1/2) 0 = (1/3, 1/3, 1/3) := by
    rw [ensembleWeights]
    rw [if_pos (by norm_num)]
  refine ⟨by rw [hlin], by rw [hpoly], hw, ?_⟩
  rw [generate_ensemble_getD false (fun _ => 1) [⟨0⟩, ⟨8⟩] 41 40 (by norm_num) (by norm_num)]
  rw [if_neg (by norm_num)]
  rw [getD_replicate_eq _ _ (by norm_num)]
  have hmap : ([⟨0⟩, ⟨8⟩] : List DataPoint).map DataPoint.total = [0, 8] := rfl
  rw [hmap, hlin, hpoly]
  have := (ensembleCombine_seasonal_zero (336, -(1/2)) (0, 1/2)).2 (by norm_num)
  rw [this]
  norm_num

/-- Claim C10 (amended): with 2 or 3 data points the ensemble never invokes the
seasonal model and substitutes the `(0, 0)` placeholder — value 0 with
confidence 0, not the seasonal model's own degenerate `(0, 0.5)` — so whenever
the linear and polynomial confidences do not sum to 0 the seasonal weight is 0
and the ensemble value is the confidence-weighted average of linear and
polynomial alone; when they sum to 0 (possible for late periods, see the
counterexample) the combiner falls back to equal thirds and the ensemble entry
is `((lin + poly)/3, 0.5)`. -/
theorem claim_C10_amended_small_history_ensemble (sk : Bool) (rand : ℕ → ℚ)
    (data : List DataPoint) (periods i : ℕ)
    (hlen : data.length = 2 ∨ data.length = 3) (hi : i < periods) :
    (generate_ensemble_prediction sk rand data periods).getD i (0, 0) =
      ensembleCombine
        ((predict_values_linear sk (data.map DataPoint.total) periods (17/20)).getD i (0, 0))
        ((predict_values_polynomial sk (data.map DataPoint.total) periods (17/20)).getD i (0, 0))
        (0, 0) ∧
    (((predict_values_linear sk (data.map DataPoint.total) periods (17/20)).getD i (0, 0)).2 +
        ((predict_values_polynomial sk (data.map DataPoint.total) periods (17/20)).getD i
          (0, 0)).2 ≠ 0 →
      ((generate_ensemble_prediction sk rand data periods).getD i (0, 0)).1 =
        ((predict_values_linear sk (data.map DataPoint.total) periods (17/20)).getD i (0, 0)).1 *
          (((predict_values_linear sk (data.map DataPoint.total) periods (17/20)).getD i
              (0, 0)).2 /
            (((predict_values_linear sk (data.map DataPoint.total) periods (17/20)).getD i
                (0, 0)).2 +
              ((predict_values_polynomial sk (data.map DataPoint.total) periods (17/20)).getD i
                (0, 0)).2)) +
        ((predict_values_polynomial sk (data.map DataPoint.total) periods (17/20)).getD i
            (0, 0)).1 *
          (((predict_values_polynomial sk (data.map DataPoint.total) periods (17/20)).getD i
              (0, 0)).2 /
            (((predict_values_linear sk (data.map DataPoint.total) periods (17/20)).getD i
                (0, 0)).2 +
              ((predict_values_polynomial sk (data.map DataPoint.total) periods (17/20)).getD i
                (0, 0)).2))) ∧
    (((predict_values_linear sk (data.map DataPoint.total) periods (17/20)).getD i (0, 0)).2 +
        ((predict_values_polynomial sk (data.map DataPoint.total) periods (17/20)).getD i
          (0, 0)).2 = 0 →
      (generate_ensemble_prediction sk rand data periods).getD i (0, 0) =
        ((((predict_values_linear sk (data.map DataPoint.total) periods (17/20)).getD i
              (0, 0)).1 +
            ((predict_values_polynomial sk (data.map DataPoint.total) periods (17/20)).getD i
              (0, 0)).1) * (1/3), 1/2)) := by
  have hlink : (generate_ensemble_prediction sk rand data periods).getD i (0, 0) =
      ensembleCombine
        ((predict_values_linear sk (data.map DataPoint.total) periods (17/20)).getD i (0, 0))
        ((predict_values_polynomial sk (data.map DataPoint.total) periods (17/20)).getD i (0, 0))
        (0, 0) := by
    rw [generate_ensemble_getD sk rand data periods i (by omega) hi]
    rw [if_neg (by omega)]
    rw [getD_replicate_eq _ _ hi]
  refine ⟨hlink, fun ht => ?_, fun ht => ?_⟩
  · rw [hlink]
    exact (ensembleCombine_seasonal_zero _ _).1 ht
  · rw [hlink]
    exact (ensembleCombine_seasonal_zero _ _).2 ht

/-- Witness for the amended C10 at history `[1, 2]`, one period. -/
theorem claim_C10_amended_small_history_ensemble_witness :
    (generate_ensemble_prediction false (fun _ => 1) [⟨1⟩, ⟨2⟩] 1).getD 0 (0, 0) =
      ensembleCombine
        ((predict_values_linear false [1, 2] 1 (17/20)).getD 0 (0, 0))
        ((predict_values_polynomial false [1, 2] 1 (17/20)).getD 0 (0, 0))
        (0, 0) :=
  (claim_C10_amended_small_history_ensemble false (fun _ => 1) [⟨1⟩, ⟨2⟩] 1 0
    (Or.inl rfl) (by norm_num)).1

/-! ### Forecast formatting lemmas -/

lemma format_predictions_get? (historical : List ℚ) (predictions : List (ℚ × ℚ))
    (dates : List String) {i : ℕ} {pr : ℚ × ℚ} {ds : String}
    (h : (predictions.zip dates).get? i = some (pr, ds)) :
    (format_predictions_for_api historical predictions dates).get? i =
      some ⟨ds, pyRound2 pr.1,
        pyRound2 (if 0 < (if i = 0 then historical.getLastD 0
              else (predictions.getD (i - 1) (0, 0)).1) then
            (pr.1 - (if i = 0 then historical.getLastD 0
              else (predictions.getD (i - 1) (0, 0)).1)) /
              (if i = 0 then historical.getLastD 0
                else (predictions.getD (i - 1) (0, 0)).1) * 100
          else 0),
        pyRound2 pr.2⟩ := by
  rw [format_predictions_for_api, List.get?_eq_getElem?, List.getElem?_map,
    List.getElem?_enum]
  rw [List.get?_eq_getElem?] at h
  rw [h]
  rfl

/-- Counterexample to C4 as stated: with a last historical value of 0 and a
positive first forecast, the formatted growth is 0, not the 100 that §4.3's
`calculate_growth_rate` gives for a zero previous value. -/
theorem claim_C4_counterexample :
    format_predictions_for_api [0] [(5, 9/10)] ["p1"] = [⟨"p1", 5, 0, 9/10⟩] ∧
    calculate_growth_rate 5 0 = 100 ∧ ((0 : ℚ) ≠ 100) := by
  refine ⟨?_, by norm_num [calculate_growth_rate], by norm_num⟩
  have hz : (([(5, 9/10)] : List (ℚ × ℚ)).zip ["p1"]).get? 0 = some ((5, 9/10), "p1") := rfl
  have hrow := format_predictions_get? [0] _ _ hz
  have hlen : (format_predictions_for_api [0] [(5, 9/10)] ["p1"]).length = 1 := rfl
  have hrow' : (format_predictions_for_api [0] [(5, 9/10)] ["p1"]).get? 0 =
      some ⟨"p1", 5, 0, 9/10⟩ := by
    rw [hrow]
    norm_num [pyRound2, roundHalfEven, List.getLastD]
  apply List.ext_get?_iff.mpr
  intro n
  match n with
  | 0 => rw [hrow']; rfl
  | Nat.succ m =>
    rw [List.get?_eq_none.mpr (by rw [hlen]; omega), List.get?_eq_none.mpr (by simp)]

/-- Claim C4 (amended): every formatted forecast row's `growth` is the §4.3
growth rate of the period's raw value versus the immediately preceding
period's value — the last historical value for the first row (0 with no
history) and the previous prediction's raw value thereafter — rounded to two
decimals, but only when that previous value is positive; when the previous
value is ≤ 0 (including the previous-value-0, current-positive case, where
§4.3 would give 100) the growth is 0. -/
theorem claim_C4_amended_forecast_growth (historical : List ℚ)
    (predictions : List (ℚ × ℚ)) (dates : List String) (i : ℕ) (row : ForecastRow)
    (hrow : (format_predictions_for_api historical predictions dates).get? i = some row) :
    row.growth =
      if 0 < (if i = 0 then historical.getLastD 0
          else (predictions.getD (i - 1) (0, 0)).1) then
        pyRound2 (calculate_growth_rate (predictions.getD i (0, 0)).1
          (if i = 0 then historical.getLastD 0 else (predictions.getD (i - 1) (0, 0)).1))
      else 0 := by
  rw [format_predictions_for_api, List.get?_eq_getElem?, List.getElem?_map,
    List.getElem?_enum] at hrow
  cases hz : (predictions.zip dates)[i]? with
  | none => rw [hz] at hrow; simp at hrow
  | some pz =>
    rw [hz] at hrow
    obtain ⟨pr, ds⟩ := pz
    simp only [Option.map_some', Option.some.injEq] at hrow
    have hpred : predictions[i]? = some pr := (List.getElem?_zip_eq_some.mp hz).1
    have hgetD : predictions.getD i (0, 0) = pr := by
      rw [List.getD_eq_getElem?_getD, hpred]
      rfl
    rw [← hrow]
    dsimp only
    rw [hgetD]
    by_cases hprev : 0 < (if i = 0 then historical.getLastD 0
        else (predictions.getD (i - 1) (0, 0)).1)
    · rw [if_pos hprev, if_pos hprev]
      congr 1
      rw [calculate_growth_rate, if_neg (ne_of_gt hprev)]
    · rw [if_neg hprev, if_neg hprev, pyRound2_zero]

/-- Witness for the amended C4: second forecast row of predictions
`[(5, 0.9), (10, 0.5)]` after history `[2]` has growth `100`, the rounded
growth rate of 10 versus the previous prediction's value 5. -/
theorem claim_C4_amended_forecast_growth_witness :
    (format_predictions_for_api [2] [(5, 9/10), (10, 1/2)] ["a", "b"]).get? 1 =
      some ⟨"b", 10, 100, 1/2⟩ ∧
    (⟨"b", 10, 100, 1/2⟩ : ForecastRow).growth =
      (if 0 < (if (1 : ℕ) = 0 then ([2] : List ℚ).getLastD 0
          else (([(5, 9/10), (10, 1/2)] : List (ℚ × ℚ)).getD (1 - 1) (0, 0)).1) then
        pyRound2 (calculate_growth_rate
          (([(5, 9/10), (10, 1/2)] : List (ℚ × ℚ)).getD 1 (0, 0)).1
          (if (1 : ℕ) = 0 then ([2] : List ℚ).getLastD 0
            else (([(5, 9/10), (10, 1/2)] : List (ℚ × ℚ)).getD (1 - 1) (0, 0)).1))
      else 0) := by
  have hz : (([(5, 9/10), (10, 1/2)] : List (ℚ × ℚ)).zip ["a", "b"]).get? 1 =
      some ((10, 1/2), "b") := rfl
  have hrow := format_predictions_get? [2] _ _ hz
  have hrow' : (format_predictions_for_api [2] [(5, 9/10), (10, 1/2)] ["a", "b"]).get? 1 =
      some ⟨"b", 10, 100, 1/2⟩ := by
    rw [hrow]
    norm_num [pyRound2, roundHalfEven, List.getD]
  exact ⟨hrow', claim_C4_amended_forecast_growth _ _ _ _ _ hrow'⟩

/-- Witness for C9 at the constant series `[7, 7, 7]`. -/
theorem claim_C9_constant_series_witness :
    (calculate_statistics [7, 7, 7]).std_dev = 0 ∧
    (calculate_statistics [7, 7, 7]).variance = 0 ∧
    (calculate_statistics [7, 7, 7]).skewness = 0 ∧
    (calculate_statistics [7, 7, 7]).kurtosis = 0 ∧
    (calculate_statistics [7, 7, 7]).mean = 7 ∧
    (calculate_statistics [7, 7, 7]).median = 7 ∧
    (calculate_statistics [7, 7, 7]).min = 7 ∧
    (calculate_statistics [7, 7, 7]).max = 7 :=
  claim_C9_constant_series [7, 7, 7] 7 (by decide) (by decide)

end Airba
